import Mathlib

/-!
Verification development for the stockbot repository.

The frontend source under src/frontend (and the unnamed frontend parts) is
embedded directly: decimal.js values are modelled as exact rationals, the
api-client request helper as a function on an HTTP response model, and the
portfolio page helpers over the Portfolio data model.  The cost-control core
described by the specification (Cache Store, Single-Flight Gate, Batch
Collapser, Rate Limiter, Retention Sweeper, Fetch Orchestrator) is not part
of the source tree; those components are modelled from the specification
text and each such definition is marked accordingly in its doc comment.
-/

namespace Stockbot

/-! ## Decimal arithmetic (src/unnamed/part_003, lib/decimal.ts)

Decimal.js values are exact decimal strings; we model them as rationals.
The method toFixed(2) rounds to two decimal places with the default
ROUND_HALF_UP mode, which rounds an equidistant value away from zero.
We represent a two-decimal output string by its integer number of
hundredths, so the string "0.00" is represented by 0.
-/

/-- Model of Decimal.toFixed(2): the value rounded to hundredths, half away
from zero, returned as the integer count of hundredths. -/
def toFixed2 (x : ℚ) : ℤ :=
  if 0 ≤ x then ⌊x * 100 + 1 / 2⌋ else -⌊-x * 100 + 1 / 2⌋

/-- Result record of calcPnL; the four numeric fields are the toFixed(2)
outputs in hundredths. -/
structure PnLResult where
  totalCost : ℤ
  totalValue : ℤ
  pnl : ℤ
  pnlPercent : ℤ
  isPositive : Bool
deriving Repr, DecidableEq

/-- Embedding of calcPnL from src/unnamed/part_003; the three string-decimal
arguments are modelled as exact rationals. -/
def calcPnL (quantity costBasis currentPrice : ℚ) : PnLResult :=
  let q := quantity
  let cost := costBasis
  let price := currentPrice
  let totalCost := q * cost
  let totalValue := q * price
  let pnl := totalValue - totalCost
  let pnlPercent := if totalCost = 0 then (0 : ℚ) else pnl / totalCost * 100
  { totalCost := toFixed2 totalCost
    totalValue := toFixed2 totalValue
    pnl := toFixed2 pnl
    pnlPercent := toFixed2 pnlPercent
    isPositive := decide (0 ≤ pnl) }

theorem toFixed2_zero : toFixed2 0 = 0 := by
  norm_num [toFixed2]

/-- C8: calcPnL never divides by zero: whenever quantity * costBasis is zero
the division branch is skipped and pnlPercent is the rounding of 0 (the
string "0.00"); otherwise pnlPercent is (pnl / totalCost) * 100 rounded to
two decimal places. -/
theorem calcPnL_no_division_by_zero (q c p : ℚ) :
    (q * c = 0 → (calcPnL q c p).pnlPercent = 0) ∧
    (q * c ≠ 0 → (calcPnL q c p).pnlPercent =
      toFixed2 ((q * p - q * c) / (q * c) * 100)) := by
  constructor
  · intro h
    simp only [calcPnL, h, if_pos rfl]
    exact toFixed2_zero
  · intro h
    simp only [calcPnL, if_neg h]

theorem calcPnL_no_division_by_zero_witness :
    (calcPnL 0 3 4).pnlPercent = 0 ∧
    (calcPnL 2 3 4).pnlPercent = toFixed2 ((2 * 4 - 2 * 3) / (2 * 3) * 100) :=
  ⟨(calcPnL_no_division_by_zero 0 3 4).1 (by norm_num),
   (calcPnL_no_division_by_zero 2 3 4).2 (by norm_num)⟩

/-- C10: calcPnL works on exact decimal values: totalCost is quantity times
costBasis, totalValue is quantity times currentPrice, pnl is their exact
difference, each rounded to two decimal places only at output; isPositive is
true exactly when the unrounded pnl is nonnegative, so a zero pnl is
reported as positive. -/
theorem calcPnL_exact_decimal (q c p : ℚ) :
    (calcPnL q c p).totalCost = toFixed2 (q * c) ∧
    (calcPnL q c p).totalValue = toFixed2 (q * p) ∧
    (calcPnL q c p).pnl = toFixed2 (q * (p - c)) ∧
    ((calcPnL q c p).isPositive = true ↔ 0 ≤ q * p - q * c) ∧
    (q * p - q * c = 0 → (calcPnL q c p).isPositive = true) := by
  refine ⟨rfl, rfl, ?_, ?_, ?_⟩
  · simp only [calcPnL]
    ring_nf
  · simp only [calcPnL, decide_eq_true_eq]
  · intro h
    simp only [calcPnL, decide_eq_true_eq]
    rw [h]

theorem calcPnL_exact_decimal_witness :
    (calcPnL 5 (7 / 2) 3).totalCost = toFixed2 (5 * (7 / 2)) ∧
    (calcPnL 5 (7 / 2) 3).isPositive = false ∧
    (calcPnL 5 3 3).isPositive = true :=
  ⟨(calcPnL_exact_decimal 5 (7 / 2) 3).1,
   by
    have h := (calcPnL_exact_decimal 5 (7 / 2) 3).2.2.2.1
    have hneg : ¬ (0 : ℚ) ≤ 5 * 3 - 5 * (7 / 2) := by norm_num
    exact Bool.eq_false_iff.mpr (fun hb => hneg (h.mp hb)),
   (calcPnL_exact_decimal 5 3 3).2.2.2.2 (by norm_num)⟩

/-! ## The api-client request helper (src/frontend/src/lib/api-client.ts)

A fetch Response is modelled by its status code, statusText, and the result
of parsing its body as JSON: none when the body is absent or unparsable,
some b when it parses, where b records the optional detail field.  The
Response.ok flag of the fetch API is true exactly for statuses 200..299.
-/

/-- Parsed JSON body, reduced to the one field the client reads. -/
structure JsonBody where
  detail : Option String
deriving Repr, DecidableEq

/-- Model of a fetch Response as seen by the request helper. -/
structure HttpResponse where
  status : Nat
  statusText : String
  jsonBody : Option JsonBody
deriving Repr, DecidableEq

/-- Fetch API: res.ok is true iff the status is in the range 200..299. -/
def HttpResponse.ok (r : HttpResponse) : Bool :=
  200 ≤ r.status && r.status ≤ 299

/-- Error thrown by the api-client on a non-ok response. -/
structure ApiError where
  status : Nat
  message : String
deriving Repr, DecidableEq

/-- Outcome of one request call: the promise resolves (with the parsed body,
or none modelling undefined for 204), throws an ApiError, or rejects with
the JSON parse failure of res.json() on an ok response. -/
inductive RequestOutcome where
  | resolved (body : Option JsonBody)
  | apiError (e : ApiError)
  | jsonParseRejection
deriving Repr, DecidableEq

/-- Embedding of body.detail with the JavaScript fallback
body.detail or res.statusText, where a missing or empty detail is falsy. -/
def errorMessage (body : JsonBody) (statusText : String) : String :=
  match body.detail with
  | some d => if d = "" then statusText else d
  | none => statusText

/-- Embedding of the request helper of api-client.ts: on a non-ok response
parse the body, falling back to a detail of statusText when parsing fails,
and throw an ApiError from status and detail; on 204 resolve with
undefined; otherwise resolve with res.json(). -/
def request (res : HttpResponse) : RequestOutcome :=
  if !res.ok then
    let body := res.jsonBody.getD { detail := some res.statusText }
    .apiError { status := res.status, message := errorMessage body res.statusText }
  else if res.status = 204 then
    .resolved none
  else
    match res.jsonBody with
    | some b => .resolved (some b)
    | none => .jsonParseRejection

/-- C9: the request helper resolves with the parsed JSON body for ok
responses (undefined for 204), and for every non-ok response throws an
ApiError carrying the status and the detail field of the body, falling back
to statusText when the body is absent or unparsable or has no detail; a
failed response is never swallowed into a resolution. -/
theorem request_outcomes (res : HttpResponse) :
    (res.ok = true → res.status ≠ 204 → ∀ b, res.jsonBody = some b →
      request res = .resolved (some b)) ∧
    (res.ok = true → res.status = 204 → request res = .resolved none) ∧
    (res.ok = false → ∀ b d, res.jsonBody = some b → b.detail = some d → d ≠ "" →
      request res = .apiError { status := res.status, message := d }) ∧
    (res.ok = false → res.jsonBody = none →
      request res = .apiError { status := res.status, message := res.statusText }) ∧
    (res.ok = false → ∀ b, res.jsonBody = some b → b.detail = none →
      request res = .apiError { status := res.status, message := res.statusText }) ∧
    (res.ok = false → ∀ b, request res ≠ .resolved b) := by
  refine ⟨?_, ?_, ?_, ?_, ?_, ?_⟩
  · intro hok h204 b hb
    simp [request, hok, h204, hb]
  · intro hok h204
    simp [request, hok, h204]
  · intro hok b d hb hd hne
    simp [request, hok, hb, errorMessage, hd, hne]
  · intro hok hb
    simp [request, hok, hb, errorMessage]
  · intro hok b hb hd
    simp [request, hok, hb, errorMessage, hd]
  · intro hok b
    simp [request, hok]

theorem request_outcomes_witness :
    request { status := 200, statusText := "OK",
              jsonBody := some { detail := none } } =
      .resolved (some { detail := none }) ∧
    request { status := 204, statusText := "No Content", jsonBody := none } =
      .resolved none ∧
    request { status := 403, statusText := "Forbidden",
              jsonBody := some { detail := some "Rate limit exceeded" } } =
      .apiError { status := 403, message := "Rate limit exceeded" } ∧
    request { status := 502, statusText := "Bad Gateway", jsonBody := none } =
      .apiError { status := 502, message := "Bad Gateway" } ∧
    (∀ b, request { status := 502, statusText := "Bad Gateway", jsonBody := none } ≠
      .resolved b) :=
  ⟨(request_outcomes _).1 (by decide) (by decide) _ rfl,
   (request_outcomes _).2.1 (by decide) rfl,
   (request_outcomes _).2.2.1 (by decide) _ _ rfl rfl (by decide),
   (request_outcomes _).2.2.2.1 (by decide) rfl,
   fun b => (request_outcomes _).2.2.2.2.2 (by decide) b⟩

/-! ## Frontend data model and the portfolio batch-prices query

Types are from src/frontend/src/types/index.ts; the symbol list and the
query method name are from the portfolio detail page (src/unnamed/part_004);
the list of methods defined on the api object is from api-client.ts.
-/

/-- StockInHolding from types/index.ts. -/
structure StockInHolding where
  id : String
  symbol : String
  name : String
deriving Repr, DecidableEq

/-- Holding from types/index.ts. -/
structure Holding where
  id : String
  stock : StockInHolding
  quantity : String
  avg_cost_basis : String
  created_at : String
deriving Repr, DecidableEq

/-- Portfolio from types/index.ts. -/
structure Portfolio where
  id : String
  name : String
  description : Option String
  holdings : List Holding
  created_at : String
  updated_at : String
deriving Repr, DecidableEq

/-- Line 42 of the portfolio detail page: the symbol list passed to the
batch-prices query is the symbol of every holding of the portfolio. -/
def holdingSymbols (p : Portfolio) : List String :=
  p.holdings.map (fun h => h.stock.symbol)

/-- Line 45 of the portfolio detail page: the name of the api method the
batch-prices query function invokes. -/
def batchPricesQueryMethod : String := "getBatchPrices"

/-- Names of all methods defined on the api object in api-client.ts, in
source order. -/
def apiMethodNames : List String :=
  ["register", "login", "me",
   "listPortfolios", "getPortfolio", "createPortfolio", "updatePortfolio",
   "deletePortfolio",
   "addHolding", "updateHolding", "deleteHolding",
   "searchStocks", "getPrice", "getPriceHistory", "getNews",
   "listRecommendations", "getRecommendation", "analyzeStock",
   "listNotifications", "getUnreadCount", "markRead", "markAllRead"]

/-- Concrete portfolio with two holdings used to evaluate the batch query
call site. -/
def samplePortfolio : Portfolio :=
  { id := "p1", name := "Tech", description := none
    holdings :=
      [{ id := "h1", stock := { id := "s1", symbol := "AAPL", name := "Apple Inc." }
         quantity := "10", avg_cost_basis := "150.00", created_at := "t1" },
       { id := "h2", stock := { id := "s2", symbol := "MSFT", name := "Microsoft" }
         quantity := "4", avg_cost_basis := "300.00", created_at := "t2" }]
    created_at := "t0", updated_at := "t0" }

/-- C3: the portfolio detail page builds the full symbol list of its
holdings and hands it to a single api.getBatchPrices call, but the api
object of api-client.ts defines no method of that name, so the query
function cannot perform any batch call at runtime. -/
theorem portfolio_batch_fetch_method_missing :
    holdingSymbols samplePortfolio = ["AAPL", "MSFT"] ∧
    batchPricesQueryMethod ∉ apiMethodNames := by
  exact ⟨rfl, by decide⟩

/-! ## Cache Store and Fetch Orchestrator (spec-modelled)

The cost-control core is not part of the source tree; the definitions in
this section are modelled from the specification (sections 3, 4.1, 4.6 and
the TTL table of section 6).  Time is in milliseconds.
-/

/-- Modelled from the spec: CacheEntry of section 3 (the Cache Store code is
missing from the source tree); value, fetch timestamp and per-data-class
ttl. -/
structure CacheEntry (V : Type) where
  value : V
  fetchedAt : Nat
  ttl : Nat
deriving Repr, DecidableEq

/-- Modelled from the spec: an entry is fresh iff now - fetchedAt < ttl
(section 3). -/
def CacheEntry.isFresh {V : Type} (e : CacheEntry V) (now : Nat) : Bool :=
  now - e.fetchedAt < e.ttl

/-- TTL table of section 6: asset directory 24h. -/
def assetDirectoryTtlMs : Nat := 24 * 60 * 60 * 1000

/-- TTL table of section 6: quotes 30min. -/
def quoteTtlMs : Nat := 30 * 60 * 1000

/-- TTL table of section 6: news 2h. -/
def newsTtlMs : Nat := 2 * 60 * 60 * 1000

/-- TTL table of section 6: recommendation 6h per user and symbol. -/
def recommendationTtlMs : Nat := 6 * 60 * 60 * 1000

/-- Line 48 of the portfolio detail page (src/unnamed/part_004): staleTime
of the batch-prices query. -/
def batchPricesStaleTimeMs : Nat := 30 * 60 * 1000

/-- Result served by the Orchestrator: a value, or the data unavailable
signal when the upstream fails and no cached value exists. -/
inductive FetchResult (V : Type) where
  | value (v : V)
  | unavailable
deriving Repr, DecidableEq

/-- Outcome of one Orchestrator fetch: the served result, the number of
upstream calls performed, and the cache entry for the key afterwards. -/
structure FetchOutcome (V : Type) where
  result : FetchResult V
  upstreamCalls : Nat
  cacheAfter : Option (CacheEntry V)
deriving Repr, DecidableEq

/-- Modelled from the spec: Fetch Orchestrator steps 1 to 4 of section 4.6
(the Orchestrator code is missing from the source tree).  A fresh hit
returns immediately with zero upstream calls; a stale or missing entry
performs one upstream call under the Single-Flight Gate; a success is
written back with the fixed ttl; a failure serves the stale value when one
exists and data unavailable otherwise. -/
def fetch {V E : Type} (cache : Option (CacheEntry V)) (now : Nat) (ttl : Nat)
    (upstream : Except E V) : FetchOutcome V :=
  match cache with
  | some e =>
    if e.isFresh now then
      { result := .value e.value, upstreamCalls := 0, cacheAfter := some e }
    else
      match upstream with
      | .ok v =>
        { result := .value v, upstreamCalls := 1
          cacheAfter := some { value := v, fetchedAt := now, ttl := ttl } }
      | .error _ =>
        { result := .value e.value, upstreamCalls := 1, cacheAfter := some e }
  | none =>
    match upstream with
    | .ok v =>
      { result := .value v, upstreamCalls := 1
        cacheAfter := some { value := v, fetchedAt := now, ttl := ttl } }
    | .error _ =>
      { result := .unavailable, upstreamCalls := 1, cacheAfter := none }

/-- C4: a fresh entry is served with zero upstream calls; a quote cached at
T=0 with the 30 minute quote ttl is served from cache at T=29min with zero
upstream calls, while at T=31min exactly one upstream call is made and the
entry is refreshed; the batch-prices query of the frontend mirrors the
quote ttl with a staleTime of 30 * 60 * 1000 ms. -/
theorem fetch_fresh_zero_upstream {V E : Type} (e : CacheEntry V) (now ttl : Nat)
    (up : Except E V) (hfresh : e.isFresh now = true) :
    fetch (some e) now ttl up =
      { result := .value e.value, upstreamCalls := 0, cacheAfter := some e } ∧
    fetch (E := Unit) (some ⟨"AAPL@189.50", 0, quoteTtlMs⟩) (29 * 60 * 1000)
        quoteTtlMs (.ok "AAPL@190.10") =
      { result := .value "AAPL@189.50", upstreamCalls := 0
        cacheAfter := some ⟨"AAPL@189.50", 0, quoteTtlMs⟩ } ∧
    fetch (E := Unit) (some ⟨"AAPL@189.50", 0, quoteTtlMs⟩) (31 * 60 * 1000)
        quoteTtlMs (.ok "AAPL@190.10") =
      { result := .value "AAPL@190.10", upstreamCalls := 1
        cacheAfter := some ⟨"AAPL@190.10", 31 * 60 * 1000, quoteTtlMs⟩ } ∧
    batchPricesStaleTimeMs = quoteTtlMs := by
  refine ⟨?_, by decide, by decide, rfl⟩
  simp [fetch, hfresh]

theorem fetch_fresh_zero_upstream_witness :
    fetch (E := Unit) (some ⟨"TSLA@250.00", 1000, quoteTtlMs⟩) 2000 quoteTtlMs
        (.ok "TSLA@251.00") =
      { result := .value "TSLA@250.00", upstreamCalls := 0
        cacheAfter := some ⟨"TSLA@250.00", 1000, quoteTtlMs⟩ } :=
  (fetch_fresh_zero_upstream ⟨"TSLA@250.00", 1000, quoteTtlMs⟩ 2000 quoteTtlMs
    (.ok "TSLA@251.00") (by decide)).1

/-- C5: when the upstream call fails and a stale entry exists, fetch serves
the stale cached value instead of propagating the error; with no cached
entry it surfaces the data unavailable result; and every served value is
either the value of the cached entry or the value the upstream returned,
never fabricated. -/
theorem fetch_stale_fallback {V E : Type} (e : CacheEntry V) (now ttl : Nat)
    (err : E) (hstale : e.isFresh now = false) :
    (fetch (some e) now ttl (.error err)).result = .value e.value ∧
    (fetch (V := V) none now ttl (.error err)).result = .unavailable ∧
    (∀ (cache : Option (CacheEntry V)) (up : Except E V) (v : V),
      (fetch cache now ttl up).result = .value v →
      (∃ c, cache = some c ∧ v = c.value) ∨ up = .ok v) := by
  refine ⟨by simp [fetch, hstale], by simp [fetch], ?_⟩
  intro cache up v hv
  match cache, up with
  | some c, up =>
    by_cases hf : c.isFresh now
    · left
      refine ⟨c, rfl, ?_⟩
      simp [fetch, hf] at hv
      exact hv.symm
    · match up with
      | .ok w =>
        right
        simp [fetch, hf] at hv
        rw [hv]
      | .error _ =>
        left
        refine ⟨c, rfl, ?_⟩
        simp [fetch, hf] at hv
        exact hv.symm
  | none, .ok w =>
    right
    simp [fetch] at hv
    rw [hv]
  | none, .error _ =>
    simp [fetch] at hv

theorem fetch_stale_fallback_witness :
    (fetch (E := String) (some ⟨"TSLA@240.00", 0, quoteTtlMs⟩) (40 * 60 * 1000)
        quoteTtlMs (.error "timeout")).result = .value "TSLA@240.00" ∧
    (fetch (V := String) none (40 * 60 * 1000) quoteTtlMs
        (.error "timeout")).result = .unavailable :=
  ⟨(fetch_stale_fallback ⟨"TSLA@240.00", 0, quoteTtlMs⟩ (40 * 60 * 1000)
      quoteTtlMs "timeout" (by decide)).1,
   (fetch_stale_fallback (V := String) ⟨"TSLA@240.00", 0, quoteTtlMs⟩
      (40 * 60 * 1000) quoteTtlMs "timeout" (by decide)).2.1⟩

/-! ## Single-Flight Gate (spec-modelled)

Modelled from the spec, sections 4.2 and 5 (the gate code is missing from
the source tree).  For one key, an execution is a list of events: a request
by a caller, or the completion of the in-flight upstream fetch with its
result.  The first requester of a miss window becomes the leader and starts
the fetch (counted in fetchCalls); later requesters while the fetch is in
flight become followers and join the waiter list; on completion every
waiter, leader included, is delivered the one result.
-/

/-- Event at a single key: a caller requests the key, or the in-flight
upstream fetch completes with a value or an error. -/
inductive SFEvent (C V E : Type) where
  | request (c : C)
  | complete (r : Except E V)
deriving Repr

/-- Modelled from the spec: gate state for one key.  inFlight is the
InFlightRequest waiter list of section 3 while a fetch is in flight;
fetchCalls counts invocations of the upstream fetch function; delivered
records each caller together with the result it received. -/
structure SFState (C V E : Type) where
  inFlight : Option (List C)
  fetchCalls : Nat
  delivered : List (C × Except E V)
deriving Repr

/-- Gate state before any event: no in-flight request, no fetch calls, no
deliveries. -/
def sfInit {C V E : Type} : SFState C V E :=
  { inFlight := none, fetchCalls := 0, delivered := [] }

/-- Modelled from the spec: one transition of the gate.  A request while no
fetch is in flight makes the caller the leader: it registers the
InFlightRequest and invokes the upstream fetch.  A request while a fetch is
in flight appends a follower to the waiter list and performs no upstream
call.  A completion publishes the one result to every waiter and
deregisters the InFlightRequest. -/
def sfStep {C V E : Type} (s : SFState C V E) : SFEvent C V E → SFState C V E
  | .request c =>
    match s.inFlight with
    | none => { s with inFlight := some [c], fetchCalls := s.fetchCalls + 1 }
    | some ws => { s with inFlight := some (ws ++ [c]) }
  | .complete r =>
    match s.inFlight with
    | none => s
    | some ws =>
      { inFlight := none, fetchCalls := s.fetchCalls
        delivered := s.delivered ++ ws.map (fun c => (c, r)) }

/-- Run of the gate over a list of events from the initial state. -/
def sfRun {C V E : Type} (evs : List (SFEvent C V E)) : SFState C V E :=
  evs.foldl sfStep sfInit

theorem sfRun_requests_from {C V E : Type} (cs : List C) (ws : List C)
    (k : Nat) (d : List (C × Except E V)) :
    (cs.map SFEvent.request).foldl sfStep
        { inFlight := some ws, fetchCalls := k, delivered := d } =
      { inFlight := some (ws ++ cs), fetchCalls := k, delivered := d } := by
  induction cs generalizing ws with
  | nil => simp
  | cons c cs ih =>
    simp only [List.map_cons, List.foldl_cons, sfStep]
    rw [ih (ws ++ [c])]
    simp

/-- C1: for every nonempty group of callers that request the same key within
one miss window (all requests arrive before the fetch completes), the
upstream fetch function is invoked exactly once, and every caller, leader
and followers alike, is delivered exactly the result r of that one fetch;
when r is an error, every follower receives that error verbatim and no
further fetch is attempted. -/
theorem singleFlight_leader_once {C V E : Type} (cs : List C) (r : Except E V)
    (hne : cs ≠ []) :
    sfRun ((cs.map SFEvent.request) ++ [SFEvent.complete r]) =
      { inFlight := none, fetchCalls := 1
        delivered := cs.map (fun c => (c, r)) } := by
  match cs, hne with
  | c :: cs, _ =>
    simp only [sfRun, List.map_cons, List.cons_append, List.foldl_cons]
    have h1 : sfStep (sfInit (C := C) (V := V) (E := E)) (.request c) =
        { inFlight := some [c], fetchCalls := 1, delivered := [] } := rfl
    rw [h1, List.foldl_append, sfRun_requests_from]
    simp [sfStep]

theorem singleFlight_leader_once_witness :
    sfRun ((["alice", "bob", "carol"].map SFEvent.request) ++
        [SFEvent.complete (Except.error "timeout" : Except String Nat)]) =
      { inFlight := none, fetchCalls := 1
        delivered := [("alice", Except.error "timeout"),
                      ("bob", Except.error "timeout"),
                      ("carol", Except.error "timeout")] } := by
  have h := singleFlight_leader_once (C := String) (V := Nat) (E := String)
    ["alice", "bob", "carol"] (.error "timeout") (by decide)
  rw [h]
  rfl

/-! ## Rate Limiter (spec-modelled)

Modelled from the spec, sections 3, 4.4 and 6 (the limiter code is missing
from the source tree): one RateLimitWindow per user, limit 10 per hour,
lazy reset computed on the next call after windowStart + period has passed.
Section 4.4 requires calls of one user to be serialized, so the per-user
history is a sequence of timed tryAcquire calls.
-/

/-- Modelled from the spec: RateLimitWindow of section 3 for one user
(userId and limit are factored out: calls are already per user and the
limit is the fixed configuration below). -/
structure RateLimitWindow where
  windowStart : Nat
  count : Nat
deriving Repr, DecidableEq

/-- Rate limit configuration of section 6: 10 generations per user per
hour. -/
def rateLimit : Nat := 10

/-- Rate limit period of one hour, in milliseconds. -/
def ratePeriodMs : Nat := 60 * 60 * 1000

/-- Decision of one tryAcquire call. -/
inductive RateDecision where
  | allowed
  | rejected
deriving Repr, DecidableEq

/-- Modelled from the spec: tryAcquire of section 4.4 with lazy window
reset.  A first call opens a window at now with count 1; a call after the
window has elapsed resets the window (new windowStart, count restarts) and
is allowed; otherwise the call increments count when count is below the
limit and is rejected when count has reached the limit. -/
def tryAcquire (w : Option RateLimitWindow) (now : Nat) :
    RateDecision × Option RateLimitWindow :=
  match w with
  | none => (.allowed, some { windowStart := now, count := 1 })
  | some win =>
    if win.windowStart + ratePeriodMs ≤ now then
      (.allowed, some { windowStart := now, count := 1 })
    else if win.count < rateLimit then
      (.allowed, some { windowStart := win.windowStart, count := win.count + 1 })
    else
      (.rejected, some win)

/-- Window state after a serialized sequence of tryAcquire calls at the
given times. -/
def runAcquires (ts : List Nat) (w : Option RateLimitWindow) :
    Option RateLimitWindow :=
  ts.foldl (fun w t => (tryAcquire w t).2) w

/-- Count held by a limiter state, 0 when no window exists. -/
def countOf (w : Option RateLimitWindow) : Nat :=
  match w with
  | none => 0
  | some win => win.count

/-- Times of the calls a serialized sequence of tryAcquire calls allows. -/
def successTimes (ts : List Nat) (w : Option RateLimitWindow) : List Nat :=
  match ts with
  | [] => []
  | t :: ts =>
    match tryAcquire w t with
    | (.allowed, w2) => t :: successTimes ts w2
    | (.rejected, w2) => successTimes ts w2

/-- Number of the given times that fall in the rolling window of one period
starting at start. -/
def countInRolling (start : Nat) (times : List Nat) : Nat :=
  (times.filter (fun t => start ≤ t && t < start + ratePeriodMs)).length

theorem tryAcquire_count_le (w : Option RateLimitWindow) (now : Nat)
    (h : countOf w ≤ rateLimit) : countOf (tryAcquire w now).2 ≤ rateLimit := by
  match w with
  | none => simp [tryAcquire, countOf, rateLimit]
  | some win =>
    simp only [tryAcquire]
    split
    · simp [countOf, rateLimit]
    · split
      · next hlt => simpa [countOf] using hlt
      · simpa [countOf] using h

theorem runAcquires_count_le (ts : List Nat) (w : Option RateLimitWindow)
    (h : countOf w ≤ rateLimit) : countOf (runAcquires ts w) ≤ rateLimit := by
  induction ts generalizing w with
  | nil => exact h
  | cons t ts ih =>
    exact ih (tryAcquire w t).2 (tryAcquire_count_le w t h)

/-- Trace showing more than 10 allowed generations inside one rolling hour:
one call at time 0 opens the window, nine more succeed at 3599999 (still
inside the window), and because the lazy reset opens a new window at
3600000, ten further calls succeed there; 19 successes fall in the rolling
hour starting at 3599999. -/
def rollingHourTrace : List Nat :=
  [0] ++ List.replicate 9 3599999 ++ List.replicate 10 3600000

/-- C2 counterexample: with the fixed window and lazy reset of section 4.4,
a rolling one-hour window can contain 19 successful generations, exceeding
the limit of 10, so the rolling-hour reading of the claim is false. -/
theorem rateLimiter_rolling_hour_counterexample :
    countInRolling 3599999 (successTimes rollingHourTrace none) = 19 ∧
    10 < countInRolling 3599999 (successTimes rollingHourTrace none) := by
  refine ⟨by decide, ?_⟩
  rw [(by decide : countInRolling 3599999 (successTimes rollingHourTrace none) = 19)]
  decide

/-- C2 amended: in every reachable limiter state the stored count never
exceeds the limit of 10; a call finding the count at the limit inside the
current window (the 11th attempt of that window) is rejected rather than
delayed or counted; and the first call at or after windowStart + period
resets the window to a new windowStart with the count restarted; the
per-window bound does not extend to arbitrary rolling hours, which can
straddle a lazy reset. -/
theorem rateLimiter_fixed_window_quota (ts : List Nat) (win : RateLimitWindow)
    (now : Nat) :
    countOf (runAcquires ts none) ≤ rateLimit ∧
    (win.count = rateLimit → now < win.windowStart + ratePeriodMs →
      (tryAcquire (some win) now).1 = .rejected) ∧
    (win.windowStart + ratePeriodMs ≤ now →
      tryAcquire (some win) now =
        (.allowed, some { windowStart := now, count := 1 })) ∧
    successTimes (List.replicate 10 0 ++ [100, ratePeriodMs]) none =
      List.replicate 10 0 ++ [ratePeriodMs] := by
  refine ⟨runAcquires_count_le ts none (by simp [countOf]), ?_, ?_, by decide⟩
  · intro hfull hin
    simp [tryAcquire, not_le.mpr hin, hfull]
  · intro hel
    simp [tryAcquire, hel]

theorem rateLimiter_fixed_window_quota_witness :
    countOf (runAcquires [0, 1, 2] none) ≤ rateLimit ∧
    (tryAcquire (some { windowStart := 0, count := 10 }) 100).1 = .rejected ∧
    tryAcquire (some { windowStart := 0, count := 10 }) ratePeriodMs =
      (.allowed, some { windowStart := ratePeriodMs, count := 1 }) :=
  ⟨(rateLimiter_fixed_window_quota [0, 1, 2] ⟨0, 10⟩ 100).1,
   (rateLimiter_fixed_window_quota [0, 1, 2] ⟨0, 10⟩ 100).2.1 rfl (by decide),
   (rateLimiter_fixed_window_quota [0, 1, 2] ⟨0, 10⟩ ratePeriodMs).2.2.1
     (by decide)⟩

/-! ## Retention Sweeper (spec-modelled)

Modelled from the spec, sections 3 and 4.5 (the sweeper code is missing
from the source tree): sweep(policies) deletes the persisted rows whose age
exceeds the maxAge of the RetentionPolicy of their data class.
-/

/-- Persisted historical row as seen by the sweeper: data class and the
time it was stored. -/
structure StoredRow where
  dataClass : String
  storedAt : Nat
deriving Repr, DecidableEq

/-- Modelled from the spec: RetentionPolicy of section 3. -/
structure RetentionPolicy where
  dataClass : String
  maxAge : Nat
deriving Repr, DecidableEq

/-- Row age at the sweep instant exceeds the maxAge of a policy covering
its data class. -/
def rowExpired (policies : List RetentionPolicy) (now : Nat)
    (r : StoredRow) : Bool :=
  policies.any (fun p => p.dataClass == r.dataClass && p.maxAge < now - r.storedAt)

/-- Modelled from the spec: sweep of section 4.5, keeping exactly the rows
not past their retention. -/
def sweep (policies : List RetentionPolicy) (now : Nat)
    (rows : List StoredRow) : List StoredRow :=
  rows.filter (fun r => !rowExpired policies now r)

/-- Rows a sweep run deletes. -/
def sweepDeleted (policies : List RetentionPolicy) (now : Nat)
    (rows : List StoredRow) : List StoredRow :=
  rows.filter (rowExpired policies now)

/-- C6: the sweeper is idempotent: the first run deletes exactly the rows
whose age exceeds their maxAge, and a second run on the swept store with no
intervening writes deletes nothing and leaves the store unchanged. -/
theorem sweep_idempotent (policies : List RetentionPolicy) (now : Nat)
    (rows : List StoredRow) :
    sweep policies now (sweep policies now rows) = sweep policies now rows ∧
    sweepDeleted policies now (sweep policies now rows) = [] ∧
    (∀ r, r ∈ sweepDeleted policies now rows ↔
      r ∈ rows ∧ rowExpired policies now r = true) := by
  refine ⟨?_, ?_, ?_⟩
  · simp only [sweep, List.filter_filter]
    exact List.filter_congr (fun r _ => by cases rowExpired policies now r <;> rfl)
  · simp only [sweepDeleted, sweep, List.filter_filter]
    apply List.filter_eq_nil_iff.mpr
    intro r _
    cases rowExpired policies now r <;> simp
  · intro r
    simp [sweepDeleted, List.mem_filter]

theorem sweep_idempotent_witness :
    sweep [⟨"news", 7⟩] 100 (sweep [⟨"news", 7⟩] 100
        [⟨"news", 90⟩, ⟨"news", 96⟩, ⟨"history", 1⟩]) =
      sweep [⟨"news", 7⟩] 100 [⟨"news", 90⟩, ⟨"news", 96⟩, ⟨"history", 1⟩] ∧
    sweepDeleted [⟨"news", 7⟩] 100 (sweep [⟨"news", 7⟩] 100
        [⟨"news", 90⟩, ⟨"news", 96⟩, ⟨"history", 1⟩]) = [] ∧
    (⟨"news", 90⟩ ∈ sweepDeleted [⟨"news", 7⟩] 100
        [⟨"news", 90⟩, ⟨"news", 96⟩, ⟨"history", 1⟩] ↔
      (⟨"news", 90⟩ : StoredRow) ∈
          [(⟨"news", 90⟩ : StoredRow), ⟨"news", 96⟩, ⟨"history", 1⟩] ∧
        rowExpired [⟨"news", 7⟩] 100 ⟨"news", 90⟩ = true) :=
  ⟨(sweep_idempotent [⟨"news", 7⟩] 100
      [⟨"news", 90⟩, ⟨"news", 96⟩, ⟨"history", 1⟩]).1,
   (sweep_idempotent [⟨"news", 7⟩] 100
      [⟨"news", 90⟩, ⟨"news", 96⟩, ⟨"history", 1⟩]).2.1,
   (sweep_idempotent [⟨"news", 7⟩] 100
      [⟨"news", 90⟩, ⟨"news", 96⟩, ⟨"history", 1⟩]).2.2 ⟨"news", 90⟩⟩

/-! ## Quota scope of the Rate Limiter (spec-modelled dispatch)

Modelled from the spec, section 4.4: only the recommendation-generation
path is guarded by the limiter; reads of previously generated
recommendations are not.  The endpoints are from api-client.ts.
-/

/-- Operations of the recommendation surface reaching the limiter layer. -/
inductive ApiOp where
  | analyzeStock (symbol : String)
  | listRecommendations
  | getRecommendation (id : String)
deriving Repr, DecidableEq

/-- Result of one operation at the quota layer. -/
inductive OpResult where
  | ok
  | quotaError
deriving Repr, DecidableEq

/-- Read operations: everything of the surface except the generation
path. -/
def ApiOp.isRead : ApiOp → Bool
  | .analyzeStock _ => false
  | .listRecommendations => true
  | .getRecommendation _ => true

/-- Modelled from the spec: dispatch of section 4.4: the generation path
calls tryAcquire first; reads never touch the window. -/
def execOp (w : Option RateLimitWindow) (now : Nat) :
    ApiOp → OpResult × Option RateLimitWindow
  | .analyzeStock _ =>
    match tryAcquire w now with
    | (.allowed, w2) => (.ok, w2)
    | (.rejected, w2) => (.quotaError, w2)
  | .listRecommendations => (.ok, w)
  | .getRecommendation _ => (.ok, w)

/-- Serialized execution of a list of operations of one user. -/
def execOps (w : Option RateLimitWindow) (now : Nat) :
    List ApiOp → List OpResult × Option RateLimitWindow
  | [] => ([], w)
  | op :: ops =>
    let step := execOp w now op
    let rest := execOps step.2 now ops
    (step.1 :: rest.1, rest.2)

/-- HTTP method and path of an api-client endpoint. -/
structure Endpoint where
  method : String
  path : String
deriving Repr, DecidableEq

/-- Endpoint of api.listRecommendations without a filter (api-client.ts
line 111): a GET, fetch default when no method option is passed. -/
def listRecommendationsEndpoint : Endpoint :=
  { method := "GET", path := "/api/recommendations" }

/-- Endpoint of api.getRecommendation (api-client.ts line 116). -/
def getRecommendationEndpoint (id : String) : Endpoint :=
  { method := "GET", path := "/api/recommendations/" ++ id }

/-- Endpoint of api.analyzeStock (api-client.ts line 119): a POST. -/
def analyzeStockEndpoint (symbol : String) : Endpoint :=
  { method := "POST", path := "/api/recommendations/analyze/" ++ symbol }

/-- C7: the limiter guards only the generation path: any serialized
sequence of read operations (listRecommendations, getRecommendation)
returns ok for every operation and leaves the RateLimitWindow of the user
untouched, no matter how many reads occur or how full the window is; the
read endpoints are GETs, distinct from the POST analyze endpoint. -/
theorem reads_no_quota_cost (w : Option RateLimitWindow) (now : Nat)
    (ops : List ApiOp) (hreads : ∀ op ∈ ops, op.isRead = true) :
    execOps w now ops = (ops.map (fun _ => OpResult.ok), w) ∧
    listRecommendationsEndpoint.method = "GET" ∧
    (analyzeStockEndpoint "AAPL").method = "POST" ∧
    (getRecommendationEndpoint "r1").path ≠ (analyzeStockEndpoint "AAPL").path := by
  refine ⟨?_, rfl, rfl, by decide⟩
  induction ops with
  | nil => rfl
  | cons op ops ih =>
    have hop := hreads op (List.mem_cons_self op ops)
    have hrest := ih (fun o ho => hreads o (List.mem_cons_of_mem op ho))
    match op, hop with
    | .listRecommendations, _ =>
      simp [execOps, execOp, hrest]
    | .getRecommendation i, _ =>
      simp [execOps, execOp, hrest]

theorem reads_no_quota_cost_witness :
    execOps (some { windowStart := 0, count := 10 }) 50
        [ApiOp.listRecommendations, ApiOp.getRecommendation "r1",
         ApiOp.listRecommendations] =
      ([OpResult.ok, OpResult.ok, OpResult.ok],
        some { windowStart := 0, count := 10 }) :=
  (reads_no_quota_cost (some ⟨0, 10⟩) 50
    [ApiOp.listRecommendations, ApiOp.getRecommendation "r1",
     ApiOp.listRecommendations] (by decide)).1

end Stockbot
